import Mathlib

/-!
# Shallow embedding of `src/src/Book.ts` (bkper-app)

The `Book` class is a lazy-loading cache facade over a remote bookkeeping
service.  We embed its observable state (the private cache fields) as a
`BookState` structure, the external collaborator services as a `World` of
fixed responses, and each method as a function
`World → BookState → ... → Except Err α × BookState × Nat`,
where the `Nat` counts the remote service calls performed, and the returned
`BookState` is the (in-place mutated) state of the object after the call,
whether it returned normally or threw.  JavaScript exceptions do not roll
back field assignments that already happened, so the state is returned on
the error path as well.

JS objects used as string-keyed dictionaries (`idAccountMap` etc.) are
embedded as association lists where assignment conses the new pair at the
front and lookup takes the first match; a later assignment to the same key
therefore shadows the earlier one, exactly like property assignment on a
JS object.
-/

namespace Bkper

/-- Error carried by a throwing collaborator service call. -/
structure Err where
  msg : String
deriving DecidableEq, Repr

deriving instance DecidableEq for Except

/-- JS `String.prototype.trim`, with whitespace taken to be the space
character (the only whitespace our inputs use): drop spaces at both ends. -/
def jsTrim (s : String) : String :=
  String.mk (((s.data.dropWhile (fun c => c = ' ')).reverse.dropWhile (fun c => c = ' ')).reverse)

/-- Modelled from the spec: `normalizeName` is defined outside `src/` (only
`Book.ts` is in scope); per the spec the normalized-name form is a
"case/diacritic/space-insensitive" pure function ("lowercase, trim, collapse
whitespace").  We model it as trimming and lowercasing, which is enough to
make it non-injective on names differing in case or surrounding space. -/
def normalizeName (s : String) : String :=
  String.mk ((jsTrim s).data.map Char.toLower)

/-- Raw `bkper.Account` payload as returned by the backend. -/
structure BkperAccount where
  id : String
  name : String
deriving DecidableEq, Repr

/-- Raw `bkper.Group` payload as returned by the backend. -/
structure BkperGroup where
  id : String
  name : String
deriving DecidableEq, Repr

/-- Raw `bkper.Transaction` payload. Its fields are never inspected by
`Book`, so an opaque id suffices. -/
structure BkperTransaction where
  id : String
deriving DecidableEq, Repr

/-- Raw `bkper.Query` payload (`{id?, query?, title?}`). -/
structure BkperQuery where
  id : Option String
  query : Option String
  title : Option String
deriving DecidableEq, Repr

/-- Raw `bkper.Book` payload (the `wrapped` snapshot): scalar metadata plus
the account and group lists which the backend bundles in the same response. -/
structure BkperBook where
  name : String
  fractionDigits : Nat
  ownerName : String
  permission : String
  datePattern : String
  decimalSeparator : String
  timeZone : String
  timeZoneOffset : Int
  lastUpdateMs : Nat
  accounts : List BkperAccount
  groups : List BkperGroup
deriving DecidableEq, Repr

/-- Modelled from the spec: the `Account` wrapper class lives outside
`src/`.  Per the spec it holds the raw payload plus a non-owning
back-reference to its ledger (we keep the book id); `getId()` returns the
payload id and `getNormalizedName()` the normalized display name. -/
structure Account where
  wrapped : BkperAccount
  bookId : Option String
deriving DecidableEq, Repr

def Account.getId (a : Account) : String := a.wrapped.id

def Account.getName (a : Account) : String := a.wrapped.name

def Account.getNormalizedName (a : Account) : String := normalizeName a.wrapped.name

/-- Modelled from the spec: the `Group` wrapper class, symmetric to
`Account`. -/
structure Group where
  wrapped : BkperGroup
  bookId : Option String
deriving DecidableEq, Repr

def Group.getId (g : Group) : String := g.wrapped.id

def Group.getName (g : Group) : String := g.wrapped.name

/-- Modelled from the spec: the `Transaction` wrapper class; `Book` only
ever wraps payloads and sets the back-reference (`configureTransaction_`). -/
structure Transaction where
  wrapped : BkperTransaction
  bookId : Option String
deriving DecidableEq, Repr

/-- A JS object used as a dictionary: association list, newest pair first. -/
abbrev JsMap (α : Type) : Type := List (String × α)

/-- `m[k] = v` — property assignment shadows any earlier pair for `k`. -/
def jsMapSet {α : Type} (m : JsMap α) (k : String) (v : α) : JsMap α :=
  (k, v) :: m

/-- `m[k]` — property read; `none` plays the role of JS `undefined`. -/
def jsMapGet {α : Type} (m : JsMap α) (k : String) : Option α :=
  (m.find? (fun p => p.1 == k)).map (fun p => p.2)

/-- The private cache fields of a `Book` instance.  `none` stands for the
JS `null`/`undefined` of an unset field. -/
structure BookState where
  id : String
  wrapped : Option BkperBook
  accounts : Option (List Account)
  groups : Option (List Group)
  idAccountMap : Option (JsMap Account)
  nameAccountMap : Option (JsMap Account)
  idGroupMap : Option (JsMap Group)
  nameGroupMap : Option (JsMap Group)
  savedQueries : Option (List BkperQuery)
deriving DecidableEq, Repr

/-- `new Book(id)` — only the id is set. -/
def freshBook (id : String) : BookState :=
  { id := id, wrapped := none, accounts := none, groups := none
    idAccountMap := none, nameAccountMap := none
    idGroupMap := none, nameGroupMap := none, savedQueries := none }

/-- The collaborator services (spec §6), each as a fixed response: `.ok`
for a successful round trip, `.error` for a thrown service failure. -/
structure World where
  loadBookWrapped : Except Err BkperBook
  createAccounts : Except Err (List BkperAccount)
  createGroups : Except Err (List Group)
  createTransactionsBatch : Except Err (List BkperTransaction)
  recordResult : Except Err Unit
  createAccountV2 : Except Err Unit
  fetchSavedQueries : Except Err (List BkperQuery)

/-- Result of a method call: outcome, object state after the call, number
of remote service calls performed during the call. -/
abbrev Res (α : Type) := Except Err α × BookState × Nat

/-- `configureGroups_(groups)`: wrap the payloads, set the back-reference,
and rebuild `groups`, `idGroupMap`, `nameGroupMap` from scratch. -/
def configureGroups_ (b : BookState) (gs : List BkperGroup) : BookState :=
  let groups := gs.map (fun g => ({ wrapped := g, bookId := some b.id } : Group))
  let idMap := groups.foldl (fun m g => jsMapSet m g.getId g) []
  let nameMap := groups.foldl (fun m g => jsMapSet m (normalizeName g.getName) g) []
  { b with groups := some groups, idGroupMap := some idMap, nameGroupMap := some nameMap }

/-- `configureAccounts_(accounts)`: wrap the payloads, set the
back-reference, and rebuild `accounts`, `idAccountMap`, `nameAccountMap`. -/
def configureAccounts_ (b : BookState) (as : List BkperAccount) : BookState :=
  let accounts := as.map (fun a => ({ wrapped := a, bookId := some b.id } : Account))
  let idMap := accounts.foldl (fun m a => jsMapSet m a.getId a) []
  let nameMap := accounts.foldl (fun m a => jsMapSet m a.getNormalizedName a) []
  { b with accounts := some accounts, idAccountMap := some idMap, nameAccountMap := some nameMap }

/-- `loadBook_()`: one fetch; on success assign `wrapped` and rebuild both
collections and all four indices from the same payload.  If the fetch
throws, no field was assigned yet. -/
def loadBook_ (w : World) (b : BookState) : Res Unit :=
  match w.loadBookWrapped with
  | .error e => (.error e, b, 1)
  | .ok payload =>
    let b1 := { b with wrapped := some payload }
    let b2 := configureGroups_ b1 payload.groups
    let b3 := configureAccounts_ b2 payload.accounts
    (.ok (), b3, 1)

/-- The state `loadBook_` leaves behind (unchanged when the fetch throws). -/
def loadedStateOf (w : World) (b : BookState) : BookState :=
  match w.loadBookWrapped with
  | .error _ => b
  | .ok payload => configureAccounts_ (configureGroups_ { b with wrapped := some payload } payload.groups) payload.accounts

/-- `checkBookLoaded_()`: load iff `wrapped == null`. -/
def checkBookLoaded_ (w : World) (b : BookState) : Res Unit :=
  match b.wrapped with
  | none => loadBook_ w b
  | some _ => (.ok (), b, 0)

/-- `checkAccountsLoaded_()`: the source tests
`wrapped == null || idAccountMap == null || idAccountMap == null`
(the third disjunct repeats the second verbatim in the source). -/
def checkAccountsLoaded_ (w : World) (b : BookState) : Res Unit :=
  if b.wrapped = none ∨ b.idAccountMap = none ∨ b.idAccountMap = none then
    loadBook_ w b
  else
    (.ok (), b, 0)

/-- `clearAccountsCache()` — nulls `idAccountMap` and `idGroupMap` only. -/
def clearAccountsCache (b : BookState) : BookState :=
  { b with idAccountMap := none, idGroupMap := none }

/-- `clearBookCache_()` — nulls `wrapped` only. -/
def clearBookCache_ (b : BookState) : BookState :=
  { b with wrapped := none }

/-- A JS property read on the `wrapped` snapshot after `checkBookLoaded_`.
Reading a property of `null` throws a `TypeError`; after a successful
check this branch is unreachable. -/
def readWrapped {α : Type} (b : BookState) (f : BkperBook → α) (n : Nat) : Res α :=
  match b.wrapped with
  | some p => (.ok (f p), b, n)
  | none => (.error ⟨"TypeError"⟩, b, n)

/-- The common shape of every scalar-metadata accessor:
`checkBookLoaded_()` then return a field of `this.wrapped`. -/
def metaRead {α : Type} (w : World) (b : BookState) (f : BkperBook → α) : Res α :=
  match checkBookLoaded_ w b with
  | (.error e, b1, n) => (.error e, b1, n)
  | (.ok _, b1, n) => readWrapped b1 f n

/-- `getName()`. -/
def getName (w : World) (b : BookState) : Res String :=
  metaRead w b (fun p => p.name)

/-- `getFractionDigits()`. -/
def getFractionDigits (w : World) (b : BookState) : Res Nat :=
  metaRead w b (fun p => p.fractionDigits)

/-- `getOwnerName()`. -/
def getOwnerName (w : World) (b : BookState) : Res String :=
  metaRead w b (fun p => p.ownerName)

/-- `getPermission()`. -/
def getPermission (w : World) (b : BookState) : Res String :=
  metaRead w b (fun p => p.permission)

/-- `getDatePattern()`. -/
def getDatePattern (w : World) (b : BookState) : Res String :=
  metaRead w b (fun p => p.datePattern)

/-- `getDecimalSeparator()`. -/
def getDecimalSeparator (w : World) (b : BookState) : Res String :=
  metaRead w b (fun p => p.decimalSeparator)

/-- `getTimeZone()`. -/
def getTimeZone (w : World) (b : BookState) : Res String :=
  metaRead w b (fun p => p.timeZone)

/-- `getTimeZoneOffset()`. -/
def getTimeZoneOffset (w : World) (b : BookState) : Res Int :=
  metaRead w b (fun p => p.timeZoneOffset)

/-- `getLastUpdateMs()` (the `+` numeric coercion is the identity here). -/
def getLastUpdateMs (w : World) (b : BookState) : Res Nat :=
  metaRead w b (fun p => p.lastUpdateMs)

/-- `getAccounts()`. -/
def getAccounts (w : World) (b : BookState) : Res (Option (List Account)) :=
  match checkAccountsLoaded_ w b with
  | (.error e, b1, n) => (.error e, b1, n)
  | (.ok _, b1, n) => (.ok b1.accounts, b1, n)

/-- `getGroups()`. -/
def getGroups (w : World) (b : BookState) : Res (Option (List Group)) :=
  match checkAccountsLoaded_ w b with
  | (.error e, b1, n) => (.error e, b1, n)
  | (.ok _, b1, n) => (.ok b1.groups, b1, n)

/-- The lookup performed by `getAccount` after its load gate: id-map hit
first, else normalized-name-map fallback.  Reading a map that is `null`
would throw a `TypeError` (unreachable after a successful gate). -/
def lookupAccount (b : BookState) (s : String) (n : Nat) : Res (Option Account) :=
  match b.idAccountMap with
  | none => (.error ⟨"TypeError"⟩, b, n)
  | some idMap =>
    match jsMapGet idMap s with
    | some a => (.ok (some a), b, n)
    | none =>
      match b.nameAccountMap with
      | none => (.error ⟨"TypeError"⟩, b, n)
      | some nameMap => (.ok (jsMapGet nameMap (normalizeName s)), b, n)

/-- `getAccount(idOrName)`: `null` input returns `null` with no work at
all; otherwise ensure loaded, then id-map lookup with normalized-name-map
fallback.  (The `idOrName + ''` string coercion is the identity on
strings.) -/
def getAccount (w : World) (b : BookState) (idOrName : Option String) : Res (Option Account) :=
  match idOrName with
  | none => (.ok none, b, 0)
  | some s =>
    match checkAccountsLoaded_ w b with
    | (.error e, b1, n) => (.error e, b1, n)
    | (.ok _, b1, n) => lookupAccount b1 s n

/-- The lookup performed by `getGroup` after its load gate. -/
def lookupGroup (b : BookState) (s : String) (n : Nat) : Res (Option Group) :=
  match b.idGroupMap with
  | none => (.error ⟨"TypeError"⟩, b, n)
  | some idMap =>
    match jsMapGet idMap s with
    | some g => (.ok (some g), b, n)
    | none =>
      match b.nameGroupMap with
      | none => (.error ⟨"TypeError"⟩, b, n)
      | some nameMap => (.ok (jsMapGet nameMap (normalizeName s)), b, n)

/-- `getGroup(idOrName)`, symmetric to `getAccount`. -/
def getGroup (w : World) (b : BookState) (idOrName : Option String) : Res (Option Group) :=
  match idOrName with
  | none => (.ok none, b, 0)
  | some s =>
    match checkAccountsLoaded_ w b with
    | (.error e, b1, n) => (.error e, b1, n)
    | (.ok _, b1, n) => lookupGroup b1 s n

/-- `configureTransaction_(transaction)` — set the back-reference. -/
def configureTransaction_ (b : BookState) (t : Transaction) : Transaction :=
  { t with bookId := some b.id }

/-- `configureTransactions_(transactions)`. -/
def configureTransactions_ (b : BookState) (ts : List Transaction) : List Transaction :=
  ts.map (configureTransaction_ b)

/-- `batchCreateTransactions(transactions)`: collect payloads, one service
call, wrap and rebind the returned payloads, then `clearAccountsCache()`. -/
def batchCreateTransactions (w : World) (b : BookState) (transactions : List Transaction) : Res (List Transaction) :=
  let _transactionPayloads := transactions.map (fun t => t.wrapped)
  match w.createTransactionsBatch with
  | .error e => (.error e, b, 1)
  | .ok created =>
    let wrappedTxs := created.map (fun p => ({ wrapped := p, bookId := none } : Transaction))
    let result := configureTransactions_ b wrappedTxs
    let b1 := clearAccountsCache b
    (.ok result, b1, 1)

/-- `record(transactions, timeZone)`: when the time zone is null or blank,
first read `getTimeZone()` (which may lazily load the book); then one
service call; on success `clearAccountsCache()`.  The free-text argument is
opaque to the facade. -/
def record (w : World) (b : BookState) (_transactions : String) (timeZone : Option String) : Res Unit :=
  if (match timeZone with | none => true | some tz => jsTrim tz == "") then
    match getTimeZone w b with
    | (.error e, b1, n) => (.error e, b1, n)
    | (.ok _, b1, n) =>
      match w.recordResult with
      | .error e => (.error e, b1, n + 1)
      | .ok _ => (.ok (), clearAccountsCache b1, n + 1)
  else
    match w.recordResult with
    | .error e => (.error e, b, 1)
    | .ok _ => (.ok (), clearAccountsCache b, 1)

/-- `batchCreateAccounts(accounts)`: empty payload list short-circuits with
no service call; otherwise one service call, `clearBookCache_()`, rebind
the created accounts and return them. -/
def batchCreateAccounts (w : World) (b : BookState) (accounts : List Account) : Res (List Account) :=
  let accountsPayloads := accounts.map (fun a => a.wrapped)
  if accountsPayloads.length > 0 then
    match w.createAccounts with
    | .error e => (.error e, b, 1)
    | .ok createdPlain =>
      let createdAccounts := createdPlain.map (fun p => ({ wrapped := p, bookId := none } : Account))
      let b1 := clearBookCache_ b
      let createdAccounts := createdAccounts.map (fun a => { a with bookId := some b1.id })
      (.ok createdAccounts, b1, 1)
  else
    (.ok [], b, 0)

/-- Modelled from the spec: the `AccountType` enum lives outside `src/`;
string constants stand for its four cases as compared by `isType`. -/
def isType (groupOrType : String) : Bool :=
  groupOrType == "ASSET" || groupOrType == "LIABILITY" ||
    groupOrType == "INCOMING" || groupOrType == "OUTGOING"

/-- Outgoing `bkper.Account` creation payload built by the deprecated
`createAccounts` matrix loop: `{name, type, groups}`. -/
structure BkperAccountDraft where
  name : String
  type : String
  groups : List String
deriving DecidableEq, Repr

/-- `account.groups.push(group.getId())` guarded by the `!= null` check of
the deprecated `createAccounts` cell loop. -/
def appendGroupId (grps : List String) : Option Group → List String
  | some g => grps ++ [g.getId]
  | none => grps

/-- The inner cell loop of the deprecated `createAccounts`: each tail cell
either overwrites the account type (`isType`) or is looked up as a group
(`getGroup`, which may lazily load and may throw) whose id is appended. -/
def createAccountsCells (w : World) (b : BookState) (cells : List String)
    (ty : String) (grps : List String) : Except Err (String × List String) × BookState × Nat :=
  match cells with
  | [] => (.ok (ty, grps), b, 0)
  | cell :: rest =>
    if isType cell then
      createAccountsCells w b rest cell grps
    else
      match getGroup w b (some cell) with
      | (.error e, b1, n) => (.error e, b1, n)
      | (.ok g?, b1, n) =>
        match createAccountsCells w b1 rest ty (appendGroupId grps g?) with
        | (r, b2, n2) => (r, b2, n + n2)

/-- The row loop of the deprecated `createAccounts`: a row whose name
already resolves via `getAccount` is skipped; otherwise its cells are
folded into a draft payload.  (A JS empty row would give the undefined
`row[0]`; `getAccount` receives `row.head?` so that case is the null
lookup, and `""` stands for the undefined name in the pushed draft.) -/
def createAccountsRows (w : World) (b : BookState) (rows : List (List String)) :
    Except Err (List BkperAccountDraft) × BookState × Nat :=
  match rows with
  | [] => (.ok [], b, 0)
  | row :: rest =>
    match getAccount w b row.head? with
    | (.error e, b1, n) => (.error e, b1, n)
    | (.ok (some _), b1, n) =>
      match createAccountsRows w b1 rest with
      | (r, b2, n2) => (r, b2, n + n2)
    | (.ok none, b1, n) =>
      match createAccountsCells w b1 row.tail "ASSET" [] with
      | (.error e, b2, n2) => (.error e, b2, n + n2)
      | (.ok (ty, grps), b2, n2) =>
        match createAccountsRows w b2 rest with
        | (.error e, b3, n3) => (.error e, b3, n + n2 + n3)
        | (.ok drafts, b3, n3) =>
          (.ok ({ name := row.head?.getD "", type := ty, groups := grps } :: drafts), b3, n + n2 + n3)

/-- The tail of the deprecated `createAccounts` after its row loop: when
any draft payloads remain, one service call, `clearBookCache_()`, rebind
and return; otherwise return `[]` with no call. -/
def createAccountsFinish (w : World) (b1 : BookState) (accountsPayloads : List BkperAccountDraft)
    (n : Nat) : Res (List Account) :=
  if accountsPayloads.length > 0 then
    match w.createAccounts with
    | .error e => (.error e, b1, n + 1)
    | .ok createdPlain =>
      let createdAccounts := createdPlain.map (fun p => ({ wrapped := p, bookId := none } : Account))
      let b2 := clearBookCache_ b1
      let createdAccounts := createdAccounts.map (fun a => { a with bookId := some b2.id })
      (.ok createdAccounts, b2, n + 1)
  else
    (.ok [], b1, n)

/-- Deprecated `createAccounts(accounts)` (string matrix): build the draft
payloads row by row (skipping existing names), then `createAccountsFinish`. -/
def createAccounts (w : World) (b : BookState) (accounts : List (List String)) : Res (List Account) :=
  match createAccountsRows w b accounts with
  | (.error e, b1, n) => (.error e, b1, n)
  | (.ok accountsPayloads, b1, n) => createAccountsFinish w b1 accountsPayloads n

/-- `batchCreateGroups(groups)`: empty input short-circuits; otherwise one
service call (which returns wrapper `Group`s directly), `clearBookCache_()`,
rebind and return. -/
def batchCreateGroups (w : World) (b : BookState) (groups : List Group) : Res (List Group) :=
  if groups.length > 0 then
    let _groupsSave := groups.map (fun g => g.wrapped)
    match w.createGroups with
    | .error e => (.error e, b, 1)
    | .ok createdGroups =>
      let b1 := clearBookCache_ b
      let createdGroups := createdGroups.map (fun g => { g with bookId := some b1.id })
      (.ok createdGroups, b1, 1)
  else
    (.ok [], b, 0)

/-- Deprecated `createGroups(groups)` (name list), same shape as
`batchCreateGroups`. -/
def createGroups (w : World) (b : BookState) (groups : List String) : Res (List Group) :=
  if groups.length > 0 then
    let _groupsSave := groups.map (fun name => ({ id := "", name := name } : BkperGroup))
    match w.createGroups with
    | .error e => (.error e, b, 1)
    | .ok createdGroups =>
      let b1 := clearBookCache_ b
      let createdGroups := createdGroups.map (fun g => { g with bookId := some b1.id })
      (.ok createdGroups, b1, 1)
  else
    (.ok [], b, 0)

/-- Deprecated `createAccount(name, ...)`: one service call,
`clearBookCache_()`, then `getAccount(name)` (which reloads). -/
def createAccount (w : World) (b : BookState) (name : String) : Res (Option Account) :=
  match w.createAccountV2 with
  | .error e => (.error e, b, 1)
  | .ok _ =>
    match getAccount w (clearBookCache_ b) (some name) with
    | (r, b2, n) => (r, b2, 1 + n)

/-- `getSavedQueries()`: fetch and memoize on first call; afterwards the
cached list is returned without a service call.  A throwing fetch assigns
nothing. -/
def getSavedQueries (w : World) (b : BookState) : Res (List BkperQuery) :=
  match b.savedQueries with
  | some qs => (.ok qs, b, 0)
  | none =>
    match w.fetchSavedQueries with
    | .error e => (.error e, b, 1)
    | .ok qs => (.ok qs, { b with savedQueries := some qs }, 1)

/-- The states a `Book` instance can reach: a fresh construction followed
by any sequence of its state-touching methods, each against an arbitrary
collaborator world and arbitrary arguments.  Methods whose only state
effect is the `checkBookLoaded_` / `checkAccountsLoaded_` gate (every
metadata accessor, `getCollection`, `getAccounts`, `getGroups`,
`formatDate`, `formatValue`, `round`) are covered by the two check steps;
methods that never touch the cache fields (`audit`, iterator and report
factories, `newTransaction`/`newAccount`/`newGroup`, `getTransaction`)
contribute no step. -/
inductive Reachable : BookState → Prop
  | init (id : String) : Reachable (freshBook id)
  | stepCheckBookLoaded (w : World) {b : BookState} :
      Reachable b → Reachable (checkBookLoaded_ w b).2.1
  | stepCheckAccountsLoaded (w : World) {b : BookState} :
      Reachable b → Reachable (checkAccountsLoaded_ w b).2.1
  | stepGetAccount (w : World) (k : Option String) {b : BookState} :
      Reachable b → Reachable (getAccount w b k).2.1
  | stepGetGroup (w : World) (k : Option String) {b : BookState} :
      Reachable b → Reachable (getGroup w b k).2.1
  | stepBatchCreateTransactions (w : World) (ts : List Transaction) {b : BookState} :
      Reachable b → Reachable (batchCreateTransactions w b ts).2.1
  | stepRecord (w : World) (txt : String) (tz : Option String) {b : BookState} :
      Reachable b → Reachable (record w b txt tz).2.1
  | stepBatchCreateAccounts (w : World) (accs : List Account) {b : BookState} :
      Reachable b → Reachable (batchCreateAccounts w b accs).2.1
  | stepCreateAccounts (w : World) (rows : List (List String)) {b : BookState} :
      Reachable b → Reachable (createAccounts w b rows).2.1
  | stepBatchCreateGroups (w : World) (gs : List Group) {b : BookState} :
      Reachable b → Reachable (batchCreateGroups w b gs).2.1
  | stepCreateGroups (w : World) (names : List String) {b : BookState} :
      Reachable b → Reachable (createGroups w b names).2.1
  | stepCreateAccount (w : World) (name : String) {b : BookState} :
      Reachable b → Reachable (createAccount w b name).2.1
  | stepClearAccountsCache {b : BookState} :
      Reachable b → Reachable (clearAccountsCache b)
  | stepGetSavedQueries (w : World) {b : BookState} :
      Reachable b → Reachable (getSavedQueries w b).2.1

/-! ### Concrete sample data (used by counterexamples and witnesses) -/

/-- A sample backend snapshot with one account and one group. -/
def sampleBook : BkperBook :=
  { name := "Ledger", fractionDigits := 2, ownerName := "Owner"
    permission := "OWNER", datePattern := "dd/MM/yyyy", decimalSeparator := "COMMA"
    timeZone := "UTC", timeZoneOffset := 0, lastUpdateMs := 100
    accounts := [{ id := "a1", name := "Bank" }]
    groups := [{ id := "g1", name := "Assets" }] }

/-- The saved-query list returned by `okWorld`. -/
def sampleQueries : List BkperQuery :=
  [{ id := some "q1", query := some "account:Bank", title := none }]

/-- A world where every collaborator call succeeds. -/
def okWorld : World :=
  { loadBookWrapped := .ok sampleBook
    createAccounts := .ok [{ id := "a2", name := "Cash" }]
    createGroups := .ok [{ wrapped := { id := "g2", name := "Liabilities" }, bookId := none }]
    createTransactionsBatch := .ok [{ id := "t1" }]
    recordResult := .ok ()
    createAccountV2 := .ok ()
    fetchSavedQueries := .ok sampleQueries }

/-- A book that has performed its lazy load against `okWorld`. -/
def loadedB : BookState := (checkBookLoaded_ okWorld (freshBook "b1")).2.1

/-- `okWorld` with a failing transaction-batch service. -/
def failTxWorld : World := { okWorld with createTransactionsBatch := .error { msg := "tx down" } }

/-- `okWorld` with a failing free-text record service. -/
def failRecordWorld : World := { okWorld with recordResult := .error { msg := "record down" } }

/-- `okWorld` with a failing account-creation service. -/
def failAccWorld : World := { okWorld with createAccounts := .error { msg := "acc down" } }

/-- `okWorld` with a failing group-creation service. -/
def failGroupWorld : World := { okWorld with createGroups := .error { msg := "grp down" } }

/-- A sample transaction-wrapper argument. -/
def sampleTx : Transaction := { wrapped := { id := "t0" }, bookId := none }

/-- A sample account-wrapper argument. -/
def sampleAcc : Account := { wrapped := { id := "a0", name := "Draft" }, bookId := none }

/-- A sample group-wrapper argument. -/
def sampleGrp : Group := { wrapped := { id := "g0", name := "Draft" }, bookId := none }

/-! ### The populate-together invariant that reachable states do satisfy -/

/-- The relations between the collection-tier cache fields that hold in
every reachable state: the two sequences and the two name maps are set or
unset together, the two id maps are set or unset together, and the id maps
are only ever set when the sequences are. -/
def CacheInv (b : BookState) : Prop :=
  (b.accounts = none ↔ b.groups = none) ∧
  (b.accounts = none ↔ b.nameAccountMap = none) ∧
  (b.accounts = none ↔ b.nameGroupMap = none) ∧
  (b.idAccountMap = none ↔ b.idGroupMap = none) ∧
  (b.idAccountMap ≠ none → b.accounts ≠ none)

/-! ### Helper lemmas: the state left behind by the lazy-load gates -/

theorem loadBook_state (w : World) (b : BookState) :
    (loadBook_ w b).2.1 = loadedStateOf w b := by
  unfold loadBook_ loadedStateOf
  cases w.loadBookWrapped <;> rfl

theorem loadBook_ok (w : World) (b : BookState) (p : BkperBook)
    (hw : w.loadBookWrapped = .ok p) :
    loadBook_ w b = (.ok (), loadedStateOf w b, 1) := by
  unfold loadBook_ loadedStateOf
  rw [hw]

theorem loadBook_err (w : World) (b : BookState) (e : Err)
    (hw : w.loadBookWrapped = .error e) :
    loadBook_ w b = (.error e, b, 1) := by
  unfold loadBook_
  rw [hw]

theorem loadedStateOf_ok (w : World) (b : BookState) (p : BkperBook)
    (hw : w.loadBookWrapped = .ok p) :
    loadedStateOf w b =
      { b with
        wrapped := some p
        groups := some (p.groups.map (fun g => ({ wrapped := g, bookId := some b.id } : Group)))
        idGroupMap := some ((p.groups.map (fun g => ({ wrapped := g, bookId := some b.id } : Group))).foldl
          (fun m g => jsMapSet m g.getId g) [])
        nameGroupMap := some ((p.groups.map (fun g => ({ wrapped := g, bookId := some b.id } : Group))).foldl
          (fun m g => jsMapSet m (normalizeName g.getName) g) [])
        accounts := some (p.accounts.map (fun a => ({ wrapped := a, bookId := some b.id } : Account)))
        idAccountMap := some ((p.accounts.map (fun a => ({ wrapped := a, bookId := some b.id } : Account))).foldl
          (fun m a => jsMapSet m a.getId a) [])
        nameAccountMap := some ((p.accounts.map (fun a => ({ wrapped := a, bookId := some b.id } : Account))).foldl
          (fun m a => jsMapSet m a.getNormalizedName a) []) } := by
  unfold loadedStateOf
  rw [hw]
  rfl

theorem loadedStateOf_err (w : World) (b : BookState) (e : Err)
    (hw : w.loadBookWrapped = .error e) :
    loadedStateOf w b = b := by
  unfold loadedStateOf
  rw [hw]

theorem loadedStateOf_idem (w : World) (b : BookState) :
    loadedStateOf w (loadedStateOf w b) = loadedStateOf w b := by
  unfold loadedStateOf
  cases w.loadBookWrapped <;> rfl

theorem loadedStateOf_id (w : World) (b : BookState) :
    (loadedStateOf w b).id = b.id := by
  unfold loadedStateOf
  cases w.loadBookWrapped <;> rfl

theorem loadedStateOf_savedQueries (w : World) (b : BookState) :
    (loadedStateOf w b).savedQueries = b.savedQueries := by
  unfold loadedStateOf
  cases w.loadBookWrapped <;> rfl

theorem checkBookLoaded_loaded (w : World) (b : BookState) (p : BkperBook)
    (h : b.wrapped = some p) :
    checkBookLoaded_ w b = (.ok (), b, 0) := by
  unfold checkBookLoaded_
  rw [h]

theorem checkBookLoaded_fresh (w : World) (b : BookState)
    (h : b.wrapped = none) :
    checkBookLoaded_ w b = loadBook_ w b := by
  unfold checkBookLoaded_
  rw [h]

theorem checkBookLoaded_state (w : World) (b : BookState) :
    (checkBookLoaded_ w b).2.1 = b ∨ (checkBookLoaded_ w b).2.1 = loadedStateOf w b := by
  unfold checkBookLoaded_
  cases h : b.wrapped
  · exact Or.inr (loadBook_state w b)
  · exact Or.inl rfl

theorem checkAccountsLoaded_loaded (w : World) (b : BookState) (p : BkperBook) (im : JsMap Account)
    (h1 : b.wrapped = some p) (h2 : b.idAccountMap = some im) :
    checkAccountsLoaded_ w b = (.ok (), b, 0) := by
  unfold checkAccountsLoaded_
  rw [if_neg]
  simp [h1, h2]

theorem checkAccountsLoaded_state (w : World) (b : BookState) :
    (checkAccountsLoaded_ w b).2.1 = b ∨ (checkAccountsLoaded_ w b).2.1 = loadedStateOf w b := by
  unfold checkAccountsLoaded_
  split
  · exact Or.inr (loadBook_state w b)
  · exact Or.inl rfl

/-! ### Helper lemmas: the state left behind by each operation -/

theorem readWrapped_state {α : Type} (b : BookState) (f : BkperBook → α) (n : Nat) :
    (readWrapped b f n).2.1 = b := by
  unfold readWrapped
  cases b.wrapped <;> rfl

theorem lookupAccount_state (b : BookState) (s : String) (n : Nat) :
    (lookupAccount b s n).2.1 = b := by
  unfold lookupAccount
  split
  · rfl
  · split
    · rfl
    · split
      · rfl
      · rfl

theorem lookupGroup_state (b : BookState) (s : String) (n : Nat) :
    (lookupGroup b s n).2.1 = b := by
  unfold lookupGroup
  split
  · rfl
  · split
    · rfl
    · split
      · rfl
      · rfl

theorem metaRead_state {α : Type} (w : World) (b : BookState) (f : BkperBook → α) :
    (metaRead w b f).2.1 = (checkBookLoaded_ w b).2.1 := by
  unfold metaRead
  rcases h : checkBookLoaded_ w b with ⟨r, b1, n⟩
  cases r with
  | error e => rfl
  | ok u =>
    show (readWrapped b1 f n).2.1 = b1
    exact readWrapped_state b1 f n

theorem getTimeZone_state (w : World) (b : BookState) :
    (getTimeZone w b).2.1 = (checkBookLoaded_ w b).2.1 := by
  unfold getTimeZone
  exact metaRead_state w b _

theorem getAccount_state_some (w : World) (b : BookState) (s : String) :
    (getAccount w b (some s)).2.1 = (checkAccountsLoaded_ w b).2.1 := by
  unfold getAccount
  rcases h : checkAccountsLoaded_ w b with ⟨r, b1, n⟩
  cases r with
  | error e => rfl
  | ok u =>
    show (lookupAccount b1 s n).2.1 = b1
    exact lookupAccount_state b1 s n

theorem getGroup_state_some (w : World) (b : BookState) (s : String) :
    (getGroup w b (some s)).2.1 = (checkAccountsLoaded_ w b).2.1 := by
  unfold getGroup
  rcases h : checkAccountsLoaded_ w b with ⟨r, b1, n⟩
  cases r with
  | error e => rfl
  | ok u =>
    show (lookupGroup b1 s n).2.1 = b1
    exact lookupGroup_state b1 s n

theorem getAccount_state (w : World) (b : BookState) (k : Option String) :
    (getAccount w b k).2.1 = b ∨ (getAccount w b k).2.1 = loadedStateOf w b := by
  cases k with
  | none => exact Or.inl rfl
  | some s =>
    rw [getAccount_state_some]
    exact checkAccountsLoaded_state w b

theorem getGroup_state (w : World) (b : BookState) (k : Option String) :
    (getGroup w b k).2.1 = b ∨ (getGroup w b k).2.1 = loadedStateOf w b := by
  cases k with
  | none => exact Or.inl rfl
  | some s =>
    rw [getGroup_state_some]
    exact checkAccountsLoaded_state w b

theorem createAccountsCells_state (w : World) :
    ∀ (cells : List String) (b : BookState) (ty : String) (grps : List String),
      (createAccountsCells w b cells ty grps).2.1 = b ∨
        (createAccountsCells w b cells ty grps).2.1 = loadedStateOf w b := by
  intro cells
  induction cells with
  | nil =>
    intro b ty grps
    exact Or.inl rfl
  | cons cell rest ih =>
    intro b ty grps
    unfold createAccountsCells
    by_cases hty : isType cell = true
    · rw [if_pos hty]
      exact ih b cell grps
    · rw [if_neg hty]
      rcases hg : getGroup w b (some cell) with ⟨r, b1, n⟩
      have hb1 : b1 = b ∨ b1 = loadedStateOf w b := by
        have h := getGroup_state w b (some cell)
        rw [hg] at h
        exact h
      cases r with
      | error e => simpa using hb1
      | ok g? =>
        have hb2 := ih b1 ty (appendGroupId grps g?)
        rcases hrec : createAccountsCells w b1 rest ty (appendGroupId grps g?) with ⟨r2, b2, n2⟩
        rw [hrec] at hb2
        simp only [hrec]
        show b2 = b ∨ b2 = loadedStateOf w b
        rcases hb1 with rfl | h1
        · exact hb2
        · rw [h1, loadedStateOf_idem] at hb2
          rcases hb2 with h2 | h2
          · exact Or.inr (h1 ▸ h2)
          · exact Or.inr h2

theorem createAccountsRows_state (w : World) :
    ∀ (rows : List (List String)) (b : BookState),
      (createAccountsRows w b rows).2.1 = b ∨
        (createAccountsRows w b rows).2.1 = loadedStateOf w b := by
  intro rows
  induction rows with
  | nil =>
    intro b
    exact Or.inl rfl
  | cons row rest ih =>
    intro b
    unfold createAccountsRows
    rcases ha : getAccount w b row.head? with ⟨r, b1, n⟩
    have hb1 : b1 = b ∨ b1 = loadedStateOf w b := by
      have h := getAccount_state w b row.head?
      rw [ha] at h
      exact h
    cases r with
    | error e => simpa using hb1
    | ok a? =>
      cases a? with
      | some a =>
        have hb2 := ih b1
        rcases hrec : createAccountsRows w b1 rest with ⟨r2, b2, n2⟩
        rw [hrec] at hb2
        simp only [hrec]
        show b2 = b ∨ b2 = loadedStateOf w b
        rcases hb1 with rfl | h1
        · exact hb2
        · rw [h1, loadedStateOf_idem] at hb2
          rcases hb2 with h2 | h2
          · exact Or.inr (h1 ▸ h2)
          · exact Or.inr h2
      | none =>
        have hb2 := createAccountsCells_state w row.tail b1 "ASSET" []
        rcases hc : createAccountsCells w b1 row.tail "ASSET" [] with ⟨r2, b2, n2⟩
        rw [hc] at hb2
        have hb2' : b2 = b ∨ b2 = loadedStateOf w b := by
          rcases hb1 with rfl | h1
          · exact hb2
          · rw [h1, loadedStateOf_idem] at hb2
            rcases hb2 with h2 | h2
            · exact Or.inr (h1 ▸ h2)
            · exact Or.inr h2
        cases r2 with
        | error e =>
          simp only [hc]
          exact hb2'
        | ok tygrps =>
          have hb3 := ih b2
          rcases hrec : createAccountsRows w b2 rest with ⟨r3, b3, n3⟩
          rw [hrec] at hb3
          have hb3' : b3 = b ∨ b3 = loadedStateOf w b := by
            rcases hb2' with rfl | h2
            · exact hb3
            · rw [h2, loadedStateOf_idem] at hb3
              rcases hb3 with h3 | h3
              · exact Or.inr (h2 ▸ h3)
              · exact Or.inr h3
          simp only [hc, hrec]
          cases r3 with
          | error e => exact hb3'
          | ok drafts => exact hb3'

theorem batchCreateTransactions_state (w : World) (b : BookState) (ts : List Transaction) :
    (batchCreateTransactions w b ts).2.1 = b ∨
      (batchCreateTransactions w b ts).2.1 = clearAccountsCache b := by
  unfold batchCreateTransactions
  cases w.createTransactionsBatch with
  | error e => exact Or.inl rfl
  | ok created => exact Or.inr rfl

theorem record_state (w : World) (b : BookState) (txt : String) (tz : Option String) :
    (record w b txt tz).2.1 = b ∨ (record w b txt tz).2.1 = loadedStateOf w b ∨
      (record w b txt tz).2.1 = clearAccountsCache b ∨
      (record w b txt tz).2.1 = clearAccountsCache (loadedStateOf w b) := by
  unfold record
  split
  · rcases h : getTimeZone w b with ⟨r, b1, n⟩
    have hb1 : b1 = b ∨ b1 = loadedStateOf w b := by
      have h1 := getTimeZone_state w b
      have h2 := checkBookLoaded_state w b
      rw [h] at h1
      have h1' : b1 = (checkBookLoaded_ w b).2.1 := h1
      rw [← h1'] at h2
      exact h2
    cases r with
    | error e =>
      rcases hb1 with rfl | h1
      · exact Or.inl rfl
      · exact Or.inr (Or.inl h1)
    | ok tzv =>
      cases w.recordResult with
      | error e =>
        rcases hb1 with rfl | h1
        · exact Or.inl rfl
        · exact Or.inr (Or.inl h1)
      | ok u =>
        rcases hb1 with rfl | h1
        · exact Or.inr (Or.inr (Or.inl rfl))
        · exact Or.inr (Or.inr (Or.inr (by rw [h1])))
  · cases w.recordResult with
    | error e => exact Or.inl rfl
    | ok u => exact Or.inr (Or.inr (Or.inl rfl))

theorem batchCreateAccounts_state (w : World) (b : BookState) (accs : List Account) :
    (batchCreateAccounts w b accs).2.1 = b ∨
      (batchCreateAccounts w b accs).2.1 = clearBookCache_ b := by
  unfold batchCreateAccounts
  cases accs with
  | nil => exact Or.inl rfl
  | cons a as =>
    cases hsvc : w.createAccounts with
    | error e => exact Or.inl (by simp [hsvc])
    | ok created => exact Or.inr (by simp [hsvc])

theorem createAccountsFinish_state (w : World) (b1 : BookState)
    (drafts : List BkperAccountDraft) (n : Nat) :
    (createAccountsFinish w b1 drafts n).2.1 = b1 ∨
      (createAccountsFinish w b1 drafts n).2.1 = clearBookCache_ b1 := by
  unfold createAccountsFinish
  cases drafts with
  | nil => exact Or.inl rfl
  | cons d ds =>
    cases hsvc : w.createAccounts with
    | error e => exact Or.inl (by simp [hsvc])
    | ok created => exact Or.inr (by simp [hsvc])

theorem createAccounts_state (w : World) (b : BookState) (rows : List (List String)) :
    (createAccounts w b rows).2.1 = b ∨
      (createAccounts w b rows).2.1 = loadedStateOf w b ∨
      (createAccounts w b rows).2.1 = clearBookCache_ b ∨
      (createAccounts w b rows).2.1 = clearBookCache_ (loadedStateOf w b) := by
  unfold createAccounts
  have hrows := createAccountsRows_state w rows b
  rcases h : createAccountsRows w b rows with ⟨r, b1, n⟩
  rw [h] at hrows
  cases r with
  | error e =>
    rcases hrows with rfl | h1
    · exact Or.inl rfl
    · exact Or.inr (Or.inl h1)
  | ok drafts =>
    show (createAccountsFinish w b1 drafts n).2.1 = b ∨
      (createAccountsFinish w b1 drafts n).2.1 = loadedStateOf w b ∨
      (createAccountsFinish w b1 drafts n).2.1 = clearBookCache_ b ∨
      (createAccountsFinish w b1 drafts n).2.1 = clearBookCache_ (loadedStateOf w b)
    rcases createAccountsFinish_state w b1 drafts n with h2 | h2 <;>
      rcases hrows with rfl | h1
    · exact Or.inl h2
    · exact Or.inr (Or.inl (h1 ▸ h2))
    · exact Or.inr (Or.inr (Or.inl h2))
    · exact Or.inr (Or.inr (Or.inr (h1 ▸ h2)))

theorem batchCreateGroups_state (w : World) (b : BookState) (gs : List Group) :
    (batchCreateGroups w b gs).2.1 = b ∨
      (batchCreateGroups w b gs).2.1 = clearBookCache_ b := by
  unfold batchCreateGroups
  cases gs with
  | nil => exact Or.inl rfl
  | cons g grest =>
    cases hsvc : w.createGroups with
    | error e => exact Or.inl (by simp [hsvc])
    | ok created => exact Or.inr (by simp [hsvc])

theorem createGroups_state (w : World) (b : BookState) (names : List String) :
    (createGroups w b names).2.1 = b ∨
      (createGroups w b names).2.1 = clearBookCache_ b := by
  unfold createGroups
  cases names with
  | nil => exact Or.inl rfl
  | cons nm rest =>
    cases hsvc : w.createGroups with
    | error e => exact Or.inl (by simp [hsvc])
    | ok created => exact Or.inr (by simp [hsvc])

theorem createAccount_state (w : World) (b : BookState) (name : String) :
    (createAccount w b name).2.1 = b ∨
      (createAccount w b name).2.1 = clearBookCache_ b ∨
      (createAccount w b name).2.1 = loadedStateOf w (clearBookCache_ b) := by
  unfold createAccount
  cases w.createAccountV2 with
  | error e => exact Or.inl rfl
  | ok u =>
    have hs := getAccount_state w (clearBookCache_ b) (some name)
    rcases h : getAccount w (clearBookCache_ b) (some name) with ⟨r, b1, n⟩
    rw [h] at hs
    show b1 = b ∨ b1 = clearBookCache_ b ∨ b1 = loadedStateOf w (clearBookCache_ b)
    rcases hs with rfl | h1
    · exact Or.inr (Or.inl rfl)
    · exact Or.inr (Or.inr h1)

theorem getSavedQueries_state (w : World) (b : BookState) :
    (getSavedQueries w b).2.1 = b ∨
      ∃ qs, (getSavedQueries w b).2.1 = { b with savedQueries := some qs } := by
  unfold getSavedQueries
  cases b.savedQueries with
  | some qs => exact Or.inl rfl
  | none =>
    cases w.fetchSavedQueries with
    | error e => exact Or.inl rfl
    | ok qs => exact Or.inr ⟨qs, rfl⟩

theorem cacheInv_freshBook (id : String) : CacheInv (freshBook id) := by
  refine ⟨?_, ?_, ?_, ?_, ?_⟩ <;> simp [freshBook]

theorem cacheInv_loadedStateOf (w : World) (b : BookState) (h : CacheInv b) :
    CacheInv (loadedStateOf w b) := by
  cases hw : w.loadBookWrapped with
  | error e =>
    rw [loadedStateOf_err w b e hw]
    exact h
  | ok p =>
    rw [loadedStateOf_ok w b p hw]
    refine ⟨?_, ?_, ?_, ?_, ?_⟩ <;> simp

theorem cacheInv_clearAccountsCache (b : BookState) (h : CacheInv b) :
    CacheInv (clearAccountsCache b) := by
  obtain ⟨h1, h2, h3, h4, h5⟩ := h
  exact ⟨h1, h2, h3, ⟨fun _ => rfl, fun _ => rfl⟩, fun hne => absurd rfl hne⟩

theorem cacheInv_clearBookCache (b : BookState) (h : CacheInv b) :
    CacheInv (clearBookCache_ b) := h

theorem cacheInv_reachable (b : BookState) (h : Reachable b) : CacheInv b := by
  induction h with
  | init id => exact cacheInv_freshBook id
  | stepCheckBookLoaded w hb ih =>
    rcases checkBookLoaded_state w _ with h' | h' <;> rw [h']
    · exact ih
    · exact cacheInv_loadedStateOf _ _ ih
  | stepCheckAccountsLoaded w hb ih =>
    rcases checkAccountsLoaded_state w _ with h' | h' <;> rw [h']
    · exact ih
    · exact cacheInv_loadedStateOf _ _ ih
  | stepGetAccount w k hb ih =>
    rcases getAccount_state w _ k with h' | h' <;> rw [h']
    · exact ih
    · exact cacheInv_loadedStateOf _ _ ih
  | stepGetGroup w k hb ih =>
    rcases getGroup_state w _ k with h' | h' <;> rw [h']
    · exact ih
    · exact cacheInv_loadedStateOf _ _ ih
  | stepBatchCreateTransactions w ts hb ih =>
    rcases batchCreateTransactions_state w _ ts with h' | h' <;> rw [h']
    · exact ih
    · exact cacheInv_clearAccountsCache _ ih
  | stepRecord w txt tz hb ih =>
    rcases record_state w _ txt tz with h' | h' | h' | h' <;> rw [h']
    · exact ih
    · exact cacheInv_loadedStateOf _ _ ih
    · exact cacheInv_clearAccountsCache _ ih
    · exact cacheInv_clearAccountsCache _ (cacheInv_loadedStateOf _ _ ih)
  | stepBatchCreateAccounts w accs hb ih =>
    rcases batchCreateAccounts_state w _ accs with h' | h' <;> rw [h']
    · exact ih
    · exact cacheInv_clearBookCache _ ih
  | stepCreateAccounts w rows hb ih =>
    rcases createAccounts_state w _ rows with h' | h' | h' | h' <;> rw [h']
    · exact ih
    · exact cacheInv_loadedStateOf _ _ ih
    · exact cacheInv_clearBookCache _ ih
    · exact cacheInv_clearBookCache _ (cacheInv_loadedStateOf _ _ ih)
  | stepBatchCreateGroups w gs hb ih =>
    rcases batchCreateGroups_state w _ gs with h' | h' <;> rw [h']
    · exact ih
    · exact cacheInv_clearBookCache _ ih
  | stepCreateGroups w names hb ih =>
    rcases createGroups_state w _ names with h' | h' <;> rw [h']
    · exact ih
    · exact cacheInv_clearBookCache _ ih
  | stepCreateAccount w name hb ih =>
    rcases createAccount_state w _ name with h' | h' | h' <;> rw [h']
    · exact ih
    · exact cacheInv_clearBookCache _ ih
    · exact cacheInv_loadedStateOf _ _ (cacheInv_clearBookCache _ ih)
  | stepClearAccountsCache hb ih =>
    exact cacheInv_clearAccountsCache _ ih
  | stepGetSavedQueries w hb ih =>
    rcases getSavedQueries_state w _ with h' | ⟨qs, h'⟩ <;> rw [h']
    · exact ih
    · exact ih

/-! ### Helper lemmas: precise effect equations for the operations -/

theorem loadedStateOf_wrapped_ok (w : World) (b : BookState) (p : BkperBook)
    (hw : w.loadBookWrapped = .ok p) :
    (loadedStateOf w b).wrapped = some p := by
  rw [loadedStateOf_ok w b p hw]

theorem metaRead_fresh_ok {α : Type} (w : World) (b : BookState) (p : BkperBook)
    (f : BkperBook → α) (hb : b.wrapped = none) (hw : w.loadBookWrapped = .ok p) :
    metaRead w b f = (.ok (f p), loadedStateOf w b, 1) := by
  unfold metaRead
  rw [checkBookLoaded_fresh w b hb, loadBook_ok w b p hw]
  show readWrapped (loadedStateOf w b) f 1 = (.ok (f p), loadedStateOf w b, 1)
  unfold readWrapped
  rw [loadedStateOf_wrapped_ok w b p hw]

theorem metaRead_loaded {α : Type} (w : World) (b : BookState) (p : BkperBook)
    (f : BkperBook → α) (hb : b.wrapped = some p) :
    metaRead w b f = (.ok (f p), b, 0) := by
  unfold metaRead
  rw [checkBookLoaded_loaded w b p hb]
  show readWrapped b f 0 = (.ok (f p), b, 0)
  unfold readWrapped
  rw [hb]

theorem batchCreateTransactions_ok (w : World) (b : BookState) (txs : List Transaction)
    (created : List BkperTransaction) (h : w.createTransactionsBatch = .ok created) :
    batchCreateTransactions w b txs =
      (.ok (created.map (fun p => ({ wrapped := p, bookId := some b.id } : Transaction))),
        { b with idAccountMap := none, idGroupMap := none }, 1) := by
  unfold batchCreateTransactions configureTransactions_ configureTransaction_
  rw [h]
  simp [List.map_map, clearAccountsCache]

theorem batchCreateTransactions_err (w : World) (b : BookState) (txs : List Transaction)
    (e : Err) (h : w.createTransactionsBatch = .error e) :
    batchCreateTransactions w b txs = (.error e, b, 1) := by
  unfold batchCreateTransactions
  rw [h]

theorem record_ok_tz (w : World) (b : BookState) (txt tz : String)
    (htz : (jsTrim tz == "") = false) (h : w.recordResult = .ok ()) :
    record w b txt (some tz) =
      (.ok (), { b with idAccountMap := none, idGroupMap := none }, 1) := by
  unfold record
  rw [if_neg (by simp [htz])]
  rw [h]
  rfl

theorem record_err_tz (w : World) (b : BookState) (txt tz : String) (e : Err)
    (htz : (jsTrim tz == "") = false) (h : w.recordResult = .error e) :
    record w b txt (some tz) = (.error e, b, 1) := by
  unfold record
  rw [if_neg (by simp [htz])]
  rw [h]

theorem record_err_loaded (w : World) (b : BookState) (txt : String) (p : BkperBook) (e : Err)
    (hb : b.wrapped = some p) (h : w.recordResult = .error e) :
    record w b txt none = (.error e, b, 1) := by
  unfold record
  rw [if_pos rfl]
  show (match getTimeZone w b with
      | (.error e, b1, n) => ((.error e : Except Err Unit), b1, n)
      | (.ok _, b1, n) =>
        match w.recordResult with
        | .error e => (.error e, b1, n + 1)
        | .ok _ => (.ok (), clearAccountsCache b1, n + 1)) = (.error e, b, 1)
  unfold getTimeZone
  rw [metaRead_loaded w b p _ hb, h]

theorem record_err_fresh (w : World) (b : BookState) (txt : String) (p : BkperBook) (e : Err)
    (hb : b.wrapped = none) (hw : w.loadBookWrapped = .ok p) (h : w.recordResult = .error e) :
    record w b txt none = (.error e, loadedStateOf w b, 2) := by
  unfold record
  rw [if_pos rfl]
  show (match getTimeZone w b with
      | (.error e, b1, n) => ((.error e : Except Err Unit), b1, n)
      | (.ok _, b1, n) =>
        match w.recordResult with
        | .error e => (.error e, b1, n + 1)
        | .ok _ => (.ok (), clearAccountsCache b1, n + 1)) = (.error e, loadedStateOf w b, 2)
  unfold getTimeZone
  rw [metaRead_fresh_ok w b p _ hb hw, h]

theorem record_ok_loaded (w : World) (b : BookState) (txt : String) (p : BkperBook)
    (hb : b.wrapped = some p) (h : w.recordResult = .ok ()) :
    record w b txt none = (.ok (), clearAccountsCache b, 1) := by
  unfold record
  rw [if_pos rfl]
  show (match getTimeZone w b with
      | (.error e, b1, n) => ((.error e : Except Err Unit), b1, n)
      | (.ok _, b1, n) =>
        match w.recordResult with
        | .error e => (.error e, b1, n + 1)
        | .ok _ => (.ok (), clearAccountsCache b1, n + 1)) = (.ok (), clearAccountsCache b, 1)
  unfold getTimeZone
  rw [metaRead_loaded w b p _ hb, h]

theorem record_ok_fresh (w : World) (b : BookState) (txt : String) (p : BkperBook)
    (hb : b.wrapped = none) (hw : w.loadBookWrapped = .ok p) (h : w.recordResult = .ok ()) :
    record w b txt none = (.ok (), clearAccountsCache (loadedStateOf w b), 2) := by
  unfold record
  rw [if_pos rfl]
  show (match getTimeZone w b with
      | (.error e, b1, n) => ((.error e : Except Err Unit), b1, n)
      | (.ok _, b1, n) =>
        match w.recordResult with
        | .error e => (.error e, b1, n + 1)
        | .ok _ => (.ok (), clearAccountsCache b1, n + 1)) =
    (.ok (), clearAccountsCache (loadedStateOf w b), 2)
  unfold getTimeZone
  rw [metaRead_fresh_ok w b p _ hb hw, h]

theorem batchCreateAccounts_ok (w : World) (b : BookState) (accs : List Account)
    (created : List BkperAccount) (hne : accs ≠ []) (h : w.createAccounts = .ok created) :
    batchCreateAccounts w b accs =
      (.ok (created.map (fun p => ({ wrapped := p, bookId := some b.id } : Account))),
        { b with wrapped := none }, 1) := by
  obtain ⟨a, as, rfl⟩ := List.exists_cons_of_ne_nil hne
  unfold batchCreateAccounts
  rw [h]
  simp [List.map_map, clearBookCache_]

theorem batchCreateAccounts_err (w : World) (b : BookState) (accs : List Account)
    (e : Err) (hne : accs ≠ []) (h : w.createAccounts = .error e) :
    batchCreateAccounts w b accs = (.error e, b, 1) := by
  obtain ⟨a, as, rfl⟩ := List.exists_cons_of_ne_nil hne
  unfold batchCreateAccounts
  rw [h]
  simp

theorem batchCreateGroups_ok (w : World) (b : BookState) (gs : List Group)
    (created : List Group) (hne : gs ≠ []) (h : w.createGroups = .ok created) :
    batchCreateGroups w b gs =
      (.ok (created.map (fun g => { g with bookId := some b.id })),
        { b with wrapped := none }, 1) := by
  obtain ⟨g, grest, rfl⟩ := List.exists_cons_of_ne_nil hne
  unfold batchCreateGroups
  rw [h]
  simp [clearBookCache_]

theorem batchCreateGroups_err (w : World) (b : BookState) (gs : List Group)
    (e : Err) (hne : gs ≠ []) (h : w.createGroups = .error e) :
    batchCreateGroups w b gs = (.error e, b, 1) := by
  obtain ⟨g, grest, rfl⟩ := List.exists_cons_of_ne_nil hne
  unfold batchCreateGroups
  rw [h]
  simp

theorem createGroups_err (w : World) (b : BookState) (names : List String)
    (e : Err) (hne : names ≠ []) (h : w.createGroups = .error e) :
    createGroups w b names = (.error e, b, 1) := by
  obtain ⟨nm, rest, rfl⟩ := List.exists_cons_of_ne_nil hne
  unfold createGroups
  rw [h]
  simp

/-! ### Helper lemmas: lookups on a loaded book -/

theorem lookupAccount_eq (b : BookState) (s : String) (n : Nat) (im nm : JsMap Account)
    (h2 : b.idAccountMap = some im) (h3 : b.nameAccountMap = some nm) :
    lookupAccount b s n =
      (.ok (match jsMapGet im s with
            | some a => some a
            | none => jsMapGet nm (normalizeName s)), b, n) := by
  unfold lookupAccount
  simp only [h2, h3]
  cases hm : jsMapGet im s <;> simp [hm]

theorem lookupGroup_eq (b : BookState) (s : String) (n : Nat) (im nm : JsMap Group)
    (h2 : b.idGroupMap = some im) (h3 : b.nameGroupMap = some nm) :
    lookupGroup b s n =
      (.ok (match jsMapGet im s with
            | some g => some g
            | none => jsMapGet nm (normalizeName s)), b, n) := by
  unfold lookupGroup
  simp only [h2, h3]
  cases hm : jsMapGet im s <;> simp [hm]

theorem getAccount_loaded (w : World) (b : BookState) (s : String) (p : BkperBook)
    (im nm : JsMap Account)
    (h1 : b.wrapped = some p) (h2 : b.idAccountMap = some im) (h3 : b.nameAccountMap = some nm) :
    getAccount w b (some s) =
      (.ok (match jsMapGet im s with
            | some a => some a
            | none => jsMapGet nm (normalizeName s)), b, 0) := by
  unfold getAccount
  rw [checkAccountsLoaded_loaded w b p im h1 h2]
  show lookupAccount b s 0 = _
  exact lookupAccount_eq b s 0 im nm h2 h3

theorem getGroup_loaded (w : World) (b : BookState) (s : String) (p : BkperBook)
    (ima : JsMap Account) (im nm : JsMap Group)
    (h0 : b.idAccountMap = some ima)
    (h1 : b.wrapped = some p) (h2 : b.idGroupMap = some im) (h3 : b.nameGroupMap = some nm) :
    getGroup w b (some s) =
      (.ok (match jsMapGet im s with
            | some g => some g
            | none => jsMapGet nm (normalizeName s)), b, 0) := by
  unfold getGroup
  rw [checkAccountsLoaded_loaded w b p ima h1 h0]
  show lookupGroup b s 0 = _
  exact lookupGroup_eq b s 0 im nm h2 h3

theorem checkAccountsLoaded_fresh_ok (w : World) (b : BookState) (p : BkperBook)
    (hb : b.wrapped = none) (hw : w.loadBookWrapped = .ok p) :
    checkAccountsLoaded_ w b = (.ok (), loadedStateOf w b, 1) := by
  unfold checkAccountsLoaded_
  rw [if_pos (Or.inl hb)]
  exact loadBook_ok w b p hw

/-! ### Helper lemmas: the JS-object maps built by the configure loops -/

theorem jsMapGet_set {α : Type} (m : JsMap α) (k : String) (v : α) (k' : String) :
    jsMapGet (jsMapSet m k v) k' = if k == k' then some v else jsMapGet m k' := by
  unfold jsMapGet jsMapSet
  rw [List.find?_cons]
  by_cases h : (k == k') <;> simp [h]

theorem foldl_jsMapSet_eq {α : Type} (f : α → String) :
    ∀ (l : List α) (init : JsMap α),
      l.foldl (fun m x => jsMapSet m (f x) x) init = (l.map (fun x => ((f x, x) : String × α))).reverse ++ init := by
  intro l
  induction l with
  | nil => intro init; rfl
  | cons x xs ih =>
    intro init
    show xs.foldl _ (jsMapSet init (f x) x) = _
    rw [ih]
    simp [jsMapSet]

theorem find?_unique {α : Type} (p : α → Bool) :
    ∀ (l : List α) (x : α), x ∈ l → p x = true → (∀ y ∈ l, p y = true → y = x) →
      l.find? p = some x := by
  intro l
  induction l with
  | nil => intro x hx; cases hx
  | cons a as ih =>
    intro x hx hp huniq
    rw [List.find?_cons]
    cases ha : p a
    · show List.find? p as = some x
      rcases List.mem_cons.mp hx with rfl | hx'
      · rw [hp] at ha
        cases ha
      · exact ih x hx' hp (fun y hy hpy => huniq y (List.mem_cons_of_mem a hy) hpy)
    · show some a = some x
      rw [huniq a (List.mem_cons_self a as) ha]

theorem jsMapGet_build_last {α : Type} (f : α → String) (xs post : List α) (x : α) (k : String)
    (hk : f x = k) (hpost : ∀ y ∈ post, f y ≠ k) :
    jsMapGet ((xs ++ x :: post).foldl (fun m y => jsMapSet m (f y) y) []) k = some x := by
  rw [foldl_jsMapSet_eq]
  unfold jsMapGet
  have hsplit :
      ((xs ++ x :: post).map (fun y => ((f y, y) : String × α))).reverse ++ ([] : JsMap α) =
        (post.map (fun y => ((f y, y) : String × α))).reverse ++
          ((f x, x) :: (xs.map (fun y => ((f y, y) : String × α))).reverse) := by
    simp
  rw [hsplit]
  rw [List.find?_append]
  have hnone : (post.map (fun y => ((f y, y) : String × α))).reverse.find?
      (fun q => q.1 == k) = none := by
    rw [List.find?_eq_none]
    intro q hq
    rw [List.mem_reverse, List.mem_map] at hq
    obtain ⟨y, hy, rfl⟩ := hq
    simpa using hpost y hy
  rw [hnone]
  simp [hk]

theorem jsMapGet_build_nodup {α : Type} (f : α → String) (l : List α) (x : α)
    (hx : x ∈ l) (hnd : (l.map f).Nodup) :
    jsMapGet (l.foldl (fun m y => jsMapSet m (f y) y) []) (f x) = some x := by
  rw [foldl_jsMapSet_eq]
  unfold jsMapGet
  have hfind : ((l.map (fun y => ((f y, y) : String × α))).reverse ++ ([] : JsMap α)).find?
      (fun q => q.1 == f x) = some (f x, x) := by
    apply find?_unique
    · rw [List.append_nil, List.mem_reverse, List.mem_map]
      exact ⟨x, hx, rfl⟩
    · simp
    · intro q hq hpq
      rw [List.append_nil, List.mem_reverse, List.mem_map] at hq
      obtain ⟨y, hy, rfl⟩ := hq
      have hfy : f y = f x := by simpa using hpq
      have := List.inj_on_of_nodup_map hnd hy hx hfy
      rw [this]
  rw [hfind]
  rfl

/-! ### Helper lemmas: call counts and saved-query preservation -/

theorem lookupAccount_count (b : BookState) (s : String) (n : Nat) :
    (lookupAccount b s n).2.2 = n := by
  unfold lookupAccount
  split
  · rfl
  · split
    · rfl
    · split
      · rfl
      · rfl

theorem lookupGroup_count (b : BookState) (s : String) (n : Nat) :
    (lookupGroup b s n).2.2 = n := by
  unfold lookupGroup
  split
  · rfl
  · split
    · rfl
    · split
      · rfl
      · rfl

theorem createAccountsFinish_err (w : World) (b1 : BookState)
    (drafts : List BkperAccountDraft) (n : Nat) (e : Err)
    (hne : drafts ≠ []) (h : w.createAccounts = .error e) :
    createAccountsFinish w b1 drafts n = (.error e, b1, n + 1) := by
  obtain ⟨d, ds, rfl⟩ := List.exists_cons_of_ne_nil hne
  unfold createAccountsFinish
  rw [h]
  simp

theorem createAccountsFinish_err_state (w : World) (b1 : BookState)
    (drafts : List BkperAccountDraft) (n : Nat) (e : Err)
    (h : w.createAccounts = .error e) :
    (createAccountsFinish w b1 drafts n).2.1 = b1 := by
  cases drafts with
  | nil => rfl
  | cons d ds =>
    rw [createAccountsFinish_err w b1 (d :: ds) n e (by simp) h]

theorem getSavedQueries_cached (w : World) (b : BookState) (qs : List BkperQuery)
    (h : b.savedQueries = some qs) :
    getSavedQueries w b = (.ok qs, b, 0) := by
  unfold getSavedQueries
  rw [h]

theorem getSavedQueries_fresh_ok (w : World) (b : BookState) (qs : List BkperQuery)
    (hb : b.savedQueries = none) (hw : w.fetchSavedQueries = .ok qs) :
    getSavedQueries w b = (.ok qs, { b with savedQueries := some qs }, 1) := by
  unfold getSavedQueries
  rw [hb, hw]

theorem batchCreateTransactions_savedQueries (w : World) (b : BookState) (ts : List Transaction) :
    (batchCreateTransactions w b ts).2.1.savedQueries = b.savedQueries := by
  rcases batchCreateTransactions_state w b ts with h | h <;> rw [h]
  rfl

theorem record_savedQueries (w : World) (b : BookState) (txt : String) (tz : Option String) :
    (record w b txt tz).2.1.savedQueries = b.savedQueries := by
  rcases record_state w b txt tz with h | h | h | h <;> rw [h]
  · exact loadedStateOf_savedQueries w b
  · rfl
  · exact loadedStateOf_savedQueries w b

theorem batchCreateAccounts_savedQueries (w : World) (b : BookState) (accs : List Account) :
    (batchCreateAccounts w b accs).2.1.savedQueries = b.savedQueries := by
  rcases batchCreateAccounts_state w b accs with h | h <;> rw [h]
  rfl

theorem createAccounts_savedQueries (w : World) (b : BookState) (rows : List (List String)) :
    (createAccounts w b rows).2.1.savedQueries = b.savedQueries := by
  rcases createAccounts_state w b rows with h | h | h | h <;> rw [h]
  · exact loadedStateOf_savedQueries w b
  · rfl
  · exact loadedStateOf_savedQueries w b

theorem batchCreateGroups_savedQueries (w : World) (b : BookState) (gs : List Group) :
    (batchCreateGroups w b gs).2.1.savedQueries = b.savedQueries := by
  rcases batchCreateGroups_state w b gs with h | h <;> rw [h]
  rfl

theorem createGroups_savedQueries (w : World) (b : BookState) (names : List String) :
    (createGroups w b names).2.1.savedQueries = b.savedQueries := by
  rcases createGroups_state w b names with h | h <;> rw [h]
  rfl

/-! ### The claims -/

/-- C1, claim as stated (counterexample): a successful
`batchCreateTransactions` on a loaded book does NOT leave the group index
maps untouched and does NOT drop the account-name index map: it nulls
`idGroupMap` (a structural group cache) while leaving `nameAccountMap`
in place. -/
theorem c1_tx_cache_clear_cex :
    (batchCreateTransactions okWorld loadedB [sampleTx]).1 =
      .ok [{ wrapped := { id := "t1" }, bookId := some "b1" }] ∧
    (batchCreateTransactions okWorld loadedB [sampleTx]).2.1.idGroupMap = none ∧
    loadedB.idGroupMap ≠ none ∧
    (batchCreateTransactions okWorld loadedB [sampleTx]).2.1.nameAccountMap = loadedB.nameAccountMap ∧
    loadedB.nameAccountMap ≠ none := by
  refine ⟨by decide, by decide, by decide, by decide, by decide⟩

/-- C1 (amended): for every non-empty batch of transactions, a successful
`batchCreateTransactions` drops exactly the two id index maps
(`idAccountMap` and `idGroupMap`), leaving the accounts and groups
sequences, both normalized-name index maps, and the loaded ledger metadata
unchanged.  The legacy `record` operation does the same when its time zone
is provided non-blank, and likewise with a null time zone on an
already-loaded book; on an unloaded book with a null time zone its
preliminary `getTimeZone()` read first lazily loads the book, and the
clear then drops exactly the two id maps of that freshly loaded state. -/
theorem c1_tx_invalidation_amended (w : World) (b : BookState) (txt : String) :
    (∀ (txs : List Transaction) (created : List BkperTransaction),
      txs ≠ [] → w.createTransactionsBatch = .ok created →
      batchCreateTransactions w b txs =
        (.ok (created.map (fun p => ({ wrapped := p, bookId := some b.id } : Transaction))),
          { b with idAccountMap := none, idGroupMap := none }, 1)) ∧
    (∀ tz : String, (jsTrim tz == "") = false → w.recordResult = .ok () →
      record w b txt (some tz) =
        (.ok (), { b with idAccountMap := none, idGroupMap := none }, 1)) ∧
    (∀ p : BkperBook, b.wrapped = some p → w.recordResult = .ok () →
      record w b txt none =
        (.ok (), { b with idAccountMap := none, idGroupMap := none }, 1)) ∧
    (∀ p : BkperBook, b.wrapped = none → w.loadBookWrapped = .ok p →
      w.recordResult = .ok () →
      record w b txt none =
        (.ok (), { loadedStateOf w b with idAccountMap := none, idGroupMap := none }, 2)) := by
  refine ⟨?_, ?_, ?_, ?_⟩
  · intro txs created _hne hok
    exact batchCreateTransactions_ok w b txs created hok
  · intro tz htz hrec
    exact record_ok_tz w b txt tz htz hrec
  · intro p hb hrec
    exact record_ok_loaded w b txt p hb hrec
  · intro p hb hw hrec
    exact record_ok_fresh w b txt p hb hw hrec

/-- Witness for C1: a non-empty batch and all three `record` cases at
concrete books and the successful world. -/
theorem c1_tx_invalidation_witness :
    batchCreateTransactions okWorld loadedB [sampleTx] =
      (.ok ([{ id := "t1" }].map (fun p => ({ wrapped := p, bookId := some loadedB.id } : Transaction))),
        { loadedB with idAccountMap := none, idGroupMap := none }, 1) ∧
    record okWorld loadedB "gas 63.23" (some "UTC") =
      (.ok (), { loadedB with idAccountMap := none, idGroupMap := none }, 1) ∧
    record okWorld loadedB "gas 63.23" none =
      (.ok (), { loadedB with idAccountMap := none, idGroupMap := none }, 1) ∧
    record okWorld (freshBook "b1") "gas 63.23" none =
      (.ok (), { loadedStateOf okWorld (freshBook "b1") with
          idAccountMap := none, idGroupMap := none }, 2) :=
  ⟨(c1_tx_invalidation_amended okWorld loadedB "gas 63.23").1 [sampleTx] [{ id := "t1" }]
      (by decide) rfl,
    (c1_tx_invalidation_amended okWorld loadedB "gas 63.23").2.1 "UTC" (by decide) rfl,
    (c1_tx_invalidation_amended okWorld loadedB "gas 63.23").2.2.1 sampleBook (by decide) rfl,
    (c1_tx_invalidation_amended okWorld (freshBook "b1") "gas 63.23").2.2.2 sampleBook
      rfl rfl rfl⟩

/-- C2, claim as stated (counterexample): a successful
`batchCreateAccounts` does NOT clear the accounts/groups sequences or the
index maps, and it does NOT leave the loaded ledger snapshot in place: it
nulls only `wrapped`, leaving `accounts` and `idAccountMap` (stale) set. -/
theorem c2_batch_accounts_clear_cex :
    (batchCreateAccounts okWorld loadedB [sampleAcc]).1 =
      .ok [{ wrapped := { id := "a2", name := "Cash" }, bookId := some "b1" }] ∧
    (batchCreateAccounts okWorld loadedB [sampleAcc]).2.1.wrapped = none ∧
    loadedB.wrapped ≠ none ∧
    (batchCreateAccounts okWorld loadedB [sampleAcc]).2.1.idAccountMap = loadedB.idAccountMap ∧
    loadedB.idAccountMap ≠ none ∧
    (batchCreateAccounts okWorld loadedB [sampleAcc]).2.1.accounts = loadedB.accounts ∧
    loadedB.accounts ≠ none := by
  refine ⟨by decide, by decide, by decide, by decide, by decide, by decide, by decide⟩

/-- C2 (amended): for every non-empty batch of accounts, a successful
`batchCreateAccounts` wraps and rebinds the returned representations and
invalidates only the scalar-metadata snapshot (`wrapped := null`), leaving
the accounts/groups sequences and all four index maps physically in place;
since the load gates test `wrapped`, the next access reloads everything. -/
theorem c2_batch_accounts_invalidation_amended (w : World) (b : BookState)
    (accs : List Account) (created : List BkperAccount)
    (hne : accs ≠ []) (h : w.createAccounts = .ok created) :
    batchCreateAccounts w b accs =
      (.ok (created.map (fun p => ({ wrapped := p, bookId := some b.id } : Account))),
        { b with wrapped := none }, 1) :=
  batchCreateAccounts_ok w b accs created hne h

/-- Witness for C2 at a concrete loaded book and successful world. -/
theorem c2_batch_accounts_invalidation_witness :
    batchCreateAccounts okWorld loadedB [sampleAcc] =
      (.ok ([{ id := "a2", name := "Cash" }].map
          (fun p => ({ wrapped := p, bookId := some loadedB.id } : Account))),
        { loadedB with wrapped := none }, 1) :=
  c2_batch_accounts_invalidation_amended okWorld loadedB [sampleAcc]
    [{ id := "a2", name := "Cash" }] (by decide) rfl

/-- C7: `getAccount(null)` and `getGroup(null)` return the not-found
sentinel (`null`) with zero remote calls and an unchanged state, on every
book state including a fresh unloaded one. -/
theorem c7_null_lookup_no_fetch (w : World) (b : BookState) :
    getAccount w b none = (.ok none, b, 0) ∧ getGroup w b none = (.ok none, b, 0) :=
  ⟨rfl, rfl⟩

/-- C8: `batchCreateAccounts([])` and `batchCreateGroups([])` perform zero
remote calls, return an empty sequence, and leave the whole state
unchanged. -/
theorem c8_empty_batch_noop (w : World) (b : BookState) :
    batchCreateAccounts w b [] = (.ok [], b, 0) ∧
    batchCreateGroups w b [] = (.ok [], b, 0) :=
  ⟨rfl, rfl⟩

/-- C3, claim as stated (counterexample): a failed `record` on a fresh book
with a null time zone propagates the service error, but the state is NOT
exactly as before the call: the preliminary `getTimeZone()` read lazily
loaded the book, so the caches went from unset to populated. -/
theorem c3_failed_record_preload_cex :
    (record failRecordWorld (freshBook "b1") "gas 10" none).1 =
      .error { msg := "record down" } ∧
    (record failRecordWorld (freshBook "b1") "gas 10" none).2.1 ≠ freshBook "b1" := by
  refine ⟨by decide, by decide⟩

/-- C3 (amended): when the mutation service call fails, the error
propagates to the caller and no cache field is invalidated.  For
`batchCreateTransactions`, `batchCreateAccounts`, `batchCreateGroups`,
`createGroups`, and `record` with an explicit non-blank time zone (or an
already-loaded book), the state is exactly as before the call.  `record`
on an unloaded book with a null time zone and `createAccounts` may first
populate the caches through the lazy load of their preliminary reads, but
a failed mutation never clears or otherwise changes any field beyond that
load (`savedQueries` in particular survives the load unchanged). -/
theorem c3_failed_mutation_amended (w : World) (b : BookState) (e : Err) :
    (∀ txs, w.createTransactionsBatch = .error e →
      batchCreateTransactions w b txs = (.error e, b, 1)) ∧
    (∀ accs, accs ≠ [] → w.createAccounts = .error e →
      batchCreateAccounts w b accs = (.error e, b, 1)) ∧
    (∀ gs, gs ≠ [] → w.createGroups = .error e →
      batchCreateGroups w b gs = (.error e, b, 1)) ∧
    (∀ names, names ≠ [] → w.createGroups = .error e →
      createGroups w b names = (.error e, b, 1)) ∧
    (∀ txt tz, (jsTrim tz == "") = false → w.recordResult = .error e →
      record w b txt (some tz) = (.error e, b, 1)) ∧
    (∀ txt p, b.wrapped = some p → w.recordResult = .error e →
      record w b txt none = (.error e, b, 1)) ∧
    (∀ txt p, b.wrapped = none → w.loadBookWrapped = .ok p → w.recordResult = .error e →
      record w b txt none = (.error e, loadedStateOf w b, 2) ∧
        (loadedStateOf w b).savedQueries = b.savedQueries) ∧
    (∀ rows, w.createAccounts = .error e →
      (createAccounts w b rows).2.1 = b ∨ (createAccounts w b rows).2.1 = loadedStateOf w b) ∧
    (∀ rows drafts b1 n, createAccountsRows w b rows = (.ok drafts, b1, n) → drafts ≠ [] →
      w.createAccounts = .error e → createAccounts w b rows = (.error e, b1, n + 1)) := by
  refine ⟨?_, ?_, ?_, ?_, ?_, ?_, ?_, ?_, ?_⟩
  · intro txs h
    exact batchCreateTransactions_err w b txs e h
  · intro accs hne h
    exact batchCreateAccounts_err w b accs e hne h
  · intro gs hne h
    exact batchCreateGroups_err w b gs e hne h
  · intro names hne h
    exact createGroups_err w b names e hne h
  · intro txt tz htz h
    exact record_err_tz w b txt tz e htz h
  · intro txt p hb h
    exact record_err_loaded w b txt p e hb h
  · intro txt p hb hw h
    exact ⟨record_err_fresh w b txt p e hb hw h, loadedStateOf_savedQueries w b⟩
  · intro rows h
    unfold createAccounts
    have hrows := createAccountsRows_state w rows b
    rcases hr : createAccountsRows w b rows with ⟨r, b1, n⟩
    rw [hr] at hrows
    cases r with
    | error e2 => exact hrows
    | ok drafts =>
      show (createAccountsFinish w b1 drafts n).2.1 = b ∨
        (createAccountsFinish w b1 drafts n).2.1 = loadedStateOf w b
      rw [createAccountsFinish_err_state w b1 drafts n e h]
      exact hrows
  · intro rows drafts b1 n hr hne h
    unfold createAccounts
    rw [hr]
    exact createAccountsFinish_err w b1 drafts n e hne h

/-- Witness for C3: a failing transaction batch on a concrete loaded book,
and a failing `record` on a fresh book. -/
theorem c3_failed_mutation_witness :
    batchCreateTransactions failTxWorld loadedB [sampleTx] =
      (.error { msg := "tx down" }, loadedB, 1) ∧
    record failRecordWorld (freshBook "b1") "gas 10" none =
      (.error { msg := "record down" },
        loadedStateOf failRecordWorld (freshBook "b1"), 2) :=
  ⟨(c3_failed_mutation_amended failTxWorld loadedB { msg := "tx down" }).1 [sampleTx] rfl,
    ((c3_failed_mutation_amended failRecordWorld (freshBook "b1")
        { msg := "record down" }).2.2.2.2.2.2.1 "gas 10" sampleBook rfl rfl rfl).1⟩

/-- C4, claim as stated (counterexample): the invalidation is not atomic —
after a loaded book performs a successful `batchCreateTransactions`, the
reachable state has the accounts sequence still populated while its id
index map has been dropped. -/
theorem c4_nonatomic_invalidation_cex :
    Reachable (batchCreateTransactions okWorld loadedB [sampleTx]).2.1 ∧
    (batchCreateTransactions okWorld loadedB [sampleTx]).2.1.accounts ≠ none ∧
    (batchCreateTransactions okWorld loadedB [sampleTx]).2.1.idAccountMap = none := by
  refine ⟨?_, by decide, by decide⟩
  exact Reachable.stepBatchCreateTransactions okWorld [sampleTx]
    (Reachable.stepCheckBookLoaded okWorld (Reachable.init "b1"))

/-- C4 (amended): the collection fields are populated together — one load
sets the sequences, the name maps and the id maps all at once — and every
reachable state satisfies the weaker coupling that actually holds: the
sequences and name maps are set/unset together, the id maps are set/unset
together, and id maps are only set when the sequences are.  Invalidation,
however, is not atomic: `clearAccountsCache` drops only the two id maps
and `clearBookCache_` only the snapshot. -/
theorem c4_cache_invariant_amended :
    (∀ b : BookState, Reachable b → CacheInv b) ∧
    (∀ (w : World) (b : BookState) (p : BkperBook), w.loadBookWrapped = .ok p →
      (loadedStateOf w b).wrapped = some p ∧
      (loadedStateOf w b).accounts ≠ none ∧ (loadedStateOf w b).groups ≠ none ∧
      (loadedStateOf w b).idAccountMap ≠ none ∧ (loadedStateOf w b).nameAccountMap ≠ none ∧
      (loadedStateOf w b).idGroupMap ≠ none ∧ (loadedStateOf w b).nameGroupMap ≠ none) := by
  constructor
  · exact cacheInv_reachable
  · intro w b p hw
    rw [loadedStateOf_ok w b p hw]
    refine ⟨rfl, ?_, ?_, ?_, ?_, ?_, ?_⟩ <;> simp

/-- Witness for C4 at the fresh book and a concrete successful load. -/
theorem c4_cache_invariant_witness :
    CacheInv (freshBook "b1") ∧
    (loadedStateOf okWorld (freshBook "b1")).wrapped = some sampleBook := by
  constructor
  · exact c4_cache_invariant_amended.1 (freshBook "b1") (Reachable.init "b1")
  · exact (c4_cache_invariant_amended.2 okWorld (freshBook "b1") sampleBook rfl).1

/-- C5: on a fresh book the first metadata accessor call performs exactly
one remote fetch (which loads the snapshot), and each accessor called on
the resulting loaded state returns the same value with zero additional
fetches and an unchanged state. -/
theorem c5_lazy_metadata_load (w : World) (b : BookState) (p : BkperBook)
    (hb : b.wrapped = none) (hw : w.loadBookWrapped = .ok p) :
    getName w b = (.ok p.name, loadedStateOf w b, 1) ∧
    getFractionDigits w b = (.ok p.fractionDigits, loadedStateOf w b, 1) ∧
    getOwnerName w b = (.ok p.ownerName, loadedStateOf w b, 1) ∧
    getPermission w b = (.ok p.permission, loadedStateOf w b, 1) ∧
    getDatePattern w b = (.ok p.datePattern, loadedStateOf w b, 1) ∧
    getTimeZone w b = (.ok p.timeZone, loadedStateOf w b, 1) ∧
    getName w (loadedStateOf w b) = (.ok p.name, loadedStateOf w b, 0) ∧
    getFractionDigits w (loadedStateOf w b) = (.ok p.fractionDigits, loadedStateOf w b, 0) ∧
    getOwnerName w (loadedStateOf w b) = (.ok p.ownerName, loadedStateOf w b, 0) ∧
    getPermission w (loadedStateOf w b) = (.ok p.permission, loadedStateOf w b, 0) ∧
    getDatePattern w (loadedStateOf w b) = (.ok p.datePattern, loadedStateOf w b, 0) ∧
    getTimeZone w (loadedStateOf w b) = (.ok p.timeZone, loadedStateOf w b, 0) := by
  have hlw := loadedStateOf_wrapped_ok w b p hw
  refine ⟨?_, ?_, ?_, ?_, ?_, ?_, ?_, ?_, ?_, ?_, ?_, ?_⟩ <;>
    first
      | exact metaRead_fresh_ok w b p _ hb hw
      | exact metaRead_loaded w (loadedStateOf w b) p _ hlw

/-- Witness for C5 at the fresh book against `okWorld`. -/
theorem c5_lazy_metadata_load_witness :
    getName okWorld (freshBook "b1") =
      (.ok sampleBook.name, loadedStateOf okWorld (freshBook "b1"), 1) ∧
    getName okWorld (loadedStateOf okWorld (freshBook "b1")) =
      (.ok sampleBook.name, loadedStateOf okWorld (freshBook "b1"), 0) :=
  ⟨(c5_lazy_metadata_load okWorld (freshBook "b1") sampleBook rfl rfl).1,
    (c5_lazy_metadata_load okWorld (freshBook "b1") sampleBook rfl rfl).2.2.2.2.2.2.1⟩

/-- C6: on a loaded book, `getAccount` (and symmetrically `getGroup`) with
a non-null key looks the key up in the id index first, falls back to the
normalized-name index only on an id miss, returns the not-found sentinel
when neither matches, and performs zero fetches and no error on a miss; on
an unloaded book the lookup first ensures the collections are loaded with
exactly one fetch. -/
theorem c6_lookup_id_then_name (w : World) (b : BookState) (s : String) (p : BkperBook)
    (ima nma : JsMap Account) (img nmg : JsMap Group)
    (h1 : b.wrapped = some p) (h2 : b.idAccountMap = some ima) (h3 : b.nameAccountMap = some nma)
    (h4 : b.idGroupMap = some img) (h5 : b.nameGroupMap = some nmg) :
    getAccount w b (some s) =
      (.ok (match jsMapGet ima s with
            | some a => some a
            | none => jsMapGet nma (normalizeName s)), b, 0) ∧
    getGroup w b (some s) =
      (.ok (match jsMapGet img s with
            | some g => some g
            | none => jsMapGet nmg (normalizeName s)), b, 0) ∧
    (jsMapGet ima s = none → jsMapGet nma (normalizeName s) = none →
      getAccount w b (some s) = (.ok none, b, 0)) ∧
    (jsMapGet img s = none → jsMapGet nmg (normalizeName s) = none →
      getGroup w b (some s) = (.ok none, b, 0)) ∧
    (∀ b' : BookState, b'.wrapped = none → w.loadBookWrapped = .ok p →
      (getAccount w b' (some s)).2.1 = loadedStateOf w b' ∧
        (getAccount w b' (some s)).2.2 = 1) := by
  have hacc := getAccount_loaded w b s p ima nma h1 h2 h3
  have hgrp := getGroup_loaded w b s p ima img nmg h2 h1 h4 h5
  refine ⟨hacc, hgrp, ?_, ?_, ?_⟩
  · intro hid hnm
    rw [hacc, hid, hnm]
  · intro hid hnm
    rw [hgrp, hid, hnm]
  · intro b' hb' hw
    constructor
    · show (getAccount w b' (some s)).2.1 = loadedStateOf w b'
      unfold getAccount
      rw [checkAccountsLoaded_fresh_ok w b' p hb' hw]
      exact lookupAccount_state (loadedStateOf w b') s 1
    · show (getAccount w b' (some s)).2.2 = 1
      unfold getAccount
      rw [checkAccountsLoaded_fresh_ok w b' p hb' hw]
      exact lookupAccount_count (loadedStateOf w b') s 1

/-- Witness for C6 at the concrete loaded book: an id hit, a name-fallback
hit, and a double miss. -/
theorem c6_lookup_id_then_name_witness :
    getAccount okWorld loadedB (some "zzz") = (.ok none, loadedB, 0) ∧
    (getAccount okWorld (freshBook "b2") (some "zzz")).2.2 = 1 := by
  have h := c6_lookup_id_then_name okWorld loadedB "zzz" sampleBook
    [("a1", { wrapped := { id := "a1", name := "Bank" }, bookId := some "b1" })]
    [("bank", { wrapped := { id := "a1", name := "Bank" }, bookId := some "b1" })]
    [("g1", { wrapped := { id := "g1", name := "Assets" }, bookId := some "b1" })]
    [("assets", { wrapped := { id := "g1", name := "Assets" }, bookId := some "b1" })]
    (by decide) (by decide) (by decide) (by decide) (by decide)
  exact ⟨h.2.2.1 (by decide) (by decide),
    (h.2.2.2.2 (freshBook "b2") rfl rfl).2⟩

/-- C9: when the account (or group) list contains two entities whose names
normalize to the same key, the normalized-name index built by the
configure loop maps that key to the entity occurring later in the list
(last write wins) — the build is a total function, so no error is raised —
and, when the ids are distinct, the id index still maps every entity's id
to that entity. -/
theorem c9_name_collision_last_wins (b : BookState)
    (pre mid post : List BkperAccount) (a a' : BkperAccount)
    (hnm : normalizeName a.name = normalizeName a'.name)
    (hpost : ∀ x ∈ post, normalizeName x.name ≠ normalizeName a'.name)
    (hids : ((pre ++ a :: mid ++ a' :: post).map (fun x => x.id)).Nodup) :
    (∃ im nm,
      (configureAccounts_ b (pre ++ a :: mid ++ a' :: post)).idAccountMap = some im ∧
      (configureAccounts_ b (pre ++ a :: mid ++ a' :: post)).nameAccountMap = some nm ∧
      jsMapGet nm (normalizeName a'.name) = some { wrapped := a', bookId := some b.id } ∧
      (∀ x ∈ pre ++ a :: mid ++ a' :: post,
        jsMapGet im x.id = some { wrapped := x, bookId := some b.id })) ∧
    (∀ (gpre gmid gpost : List BkperGroup) (g g' : BkperGroup),
      normalizeName g.name = normalizeName g'.name →
      (∀ x ∈ gpost, normalizeName x.name ≠ normalizeName g'.name) →
      ∃ gm, (configureGroups_ b (gpre ++ g :: gmid ++ g' :: gpost)).nameGroupMap = some gm ∧
        jsMapGet gm (normalizeName g'.name) = some { wrapped := g', bookId := some b.id }) := by
  constructor
  · refine ⟨_, _, rfl, rfl, ?_, ?_⟩
    · have hA : (pre ++ a :: mid ++ a' :: post).map
          (fun x => ({ wrapped := x, bookId := some b.id } : Account)) =
          (pre.map (fun x => ({ wrapped := x, bookId := some b.id } : Account)) ++
            ({ wrapped := a, bookId := some b.id } : Account) ::
              mid.map (fun x => ({ wrapped := x, bookId := some b.id } : Account))) ++
            ({ wrapped := a', bookId := some b.id } : Account) ::
              post.map (fun x => ({ wrapped := x, bookId := some b.id } : Account)) := by
        simp
      show jsMapGet (((pre ++ a :: mid ++ a' :: post).map
          (fun x => ({ wrapped := x, bookId := some b.id } : Account))).foldl
            (fun m y => jsMapSet m y.getNormalizedName y) [])
          (normalizeName a'.name) = some { wrapped := a', bookId := some b.id }
      rw [hA]
      apply jsMapGet_build_last Account.getNormalizedName _ _ _ _ rfl
      intro y hy
      obtain ⟨x, hx, rfl⟩ := List.mem_map.mp hy
      exact hpost x hx
    · intro x hx
      show jsMapGet (((pre ++ a :: mid ++ a' :: post).map
          (fun z => ({ wrapped := z, bookId := some b.id } : Account))).foldl
            (fun m y => jsMapSet m y.getId y) [])
          x.id = some { wrapped := x, bookId := some b.id }
      have hnd : ((((pre ++ a :: mid ++ a' :: post)).map
          (fun z => ({ wrapped := z, bookId := some b.id } : Account))).map
            Account.getId).Nodup := by
        rw [List.map_map]
        exact hids
      exact jsMapGet_build_nodup Account.getId _
        ({ wrapped := x, bookId := some b.id } : Account)
        (List.mem_map_of_mem _ hx) hnd
  · intro gpre gmid gpost g g' hgnm hgpost
    refine ⟨_, rfl, ?_⟩
    have hA : (gpre ++ g :: gmid ++ g' :: gpost).map
        (fun x => ({ wrapped := x, bookId := some b.id } : Group)) =
        (gpre.map (fun x => ({ wrapped := x, bookId := some b.id } : Group)) ++
          ({ wrapped := g, bookId := some b.id } : Group) ::
            gmid.map (fun x => ({ wrapped := x, bookId := some b.id } : Group))) ++
          ({ wrapped := g', bookId := some b.id } : Group) ::
            gpost.map (fun x => ({ wrapped := x, bookId := some b.id } : Group)) := by
      simp
    show jsMapGet (((gpre ++ g :: gmid ++ g' :: gpost).map
        (fun x => ({ wrapped := x, bookId := some b.id } : Group))).foldl
          (fun m y => jsMapSet m (normalizeName y.getName) y) [])
        (normalizeName g'.name) = some { wrapped := g', bookId := some b.id }
    rw [hA]
    apply jsMapGet_build_last (fun y => normalizeName (Group.getName y)) _ _ _ _ rfl
    intro y hy
    obtain ⟨x, hx, rfl⟩ := List.mem_map.mp hy
    exact hgpost x hx

/-- Witness for C9: two accounts "Bank" and "bank " (same normalized key,
distinct ids) and two groups likewise. -/
theorem c9_name_collision_last_wins_witness :
    (∃ im nm,
      (configureAccounts_ (freshBook "b1")
        ([] ++ { id := "a1", name := "Bank" } :: [] ++
          { id := "a2", name := "bank " } :: [])).idAccountMap = some im ∧
      (configureAccounts_ (freshBook "b1")
        ([] ++ { id := "a1", name := "Bank" } :: [] ++
          { id := "a2", name := "bank " } :: [])).nameAccountMap = some nm ∧
      jsMapGet nm (normalizeName "bank ") =
        some { wrapped := { id := "a2", name := "bank " }, bookId := some "b1" } ∧
      (∀ x ∈ [] ++ ({ id := "a1", name := "Bank" } : BkperAccount) :: [] ++
          { id := "a2", name := "bank " } :: [],
        jsMapGet im x.id = some { wrapped := x, bookId := some "b1" })) := by
  have h := c9_name_collision_last_wins (freshBook "b1")
    [] [] [] { id := "a1", name := "Bank" } { id := "a2", name := "bank " }
    (by decide) (by decide) (by decide)
  exact h.1

/-- C10: `getSavedQueries` fetches at most once per instance — a cached
list is returned with zero remote calls and an unchanged state, a first
successful call caches the fetched list — and no mutation or
cache-clearing operation ever touches the `savedQueries` field. -/
theorem c10_saved_queries_cached_forever (w : World) (b : BookState) :
    (∀ qs, b.savedQueries = some qs → getSavedQueries w b = (.ok qs, b, 0)) ∧
    (∀ qs, b.savedQueries = none → w.fetchSavedQueries = .ok qs →
      getSavedQueries w b = (.ok qs, { b with savedQueries := some qs }, 1) ∧
      getSavedQueries w { b with savedQueries := some qs } =
        (.ok qs, { b with savedQueries := some qs }, 0)) ∧
    (∀ ts, (batchCreateTransactions w b ts).2.1.savedQueries = b.savedQueries) ∧
    (∀ accs, (batchCreateAccounts w b accs).2.1.savedQueries = b.savedQueries) ∧
    (∀ gs, (batchCreateGroups w b gs).2.1.savedQueries = b.savedQueries) ∧
    (∀ names, (createGroups w b names).2.1.savedQueries = b.savedQueries) ∧
    (∀ txt tz, (record w b txt tz).2.1.savedQueries = b.savedQueries) ∧
    (∀ rows, (createAccounts w b rows).2.1.savedQueries = b.savedQueries) ∧
    (clearAccountsCache b).savedQueries = b.savedQueries := by
  refine ⟨?_, ?_, ?_, ?_, ?_, ?_, ?_, ?_, rfl⟩
  · intro qs h
    exact getSavedQueries_cached w b qs h
  · intro qs hb hw
    exact ⟨getSavedQueries_fresh_ok w b qs hb hw, getSavedQueries_cached w _ qs rfl⟩
  · intro ts
    exact batchCreateTransactions_savedQueries w b ts
  · intro accs
    exact batchCreateAccounts_savedQueries w b accs
  · intro gs
    exact batchCreateGroups_savedQueries w b gs
  · intro names
    exact createGroups_savedQueries w b names
  · intro txt tz
    exact record_savedQueries w b txt tz
  · intro rows
    exact createAccounts_savedQueries w b rows

/-- Witness for C10: first call against `okWorld` caches, second call
returns the cache with zero calls. -/
theorem c10_saved_queries_witness :
    getSavedQueries okWorld (freshBook "b1") =
      (.ok sampleQueries,
        { freshBook "b1" with savedQueries := some sampleQueries }, 1) ∧
    getSavedQueries okWorld { freshBook "b1" with savedQueries := some sampleQueries } =
      (.ok sampleQueries,
        { freshBook "b1" with savedQueries := some sampleQueries }, 0) :=
  (c10_saved_queries_cached_forever okWorld (freshBook "b1")).2.1
    sampleQueries rfl rfl

end Bkper
